import Mathlib

/-!
Verification of the keteparaha page/component registry, navigation resolver,
click dispatch, `get_component`, the `retry` flow-control decorator and the
`snapshot_on_error` decorator, as implemented in `keteparaha/page.py`,
`keteparaha/flow.py` and `keteparaha/browser.py`.

The Python code is shallowly embedded: the class registry is an association
list with Python-dict semantics, Python string attributes that may be unset
or `None` are `Option String`, Python truthiness of such attributes is made
explicit, and methods that can raise are modelled with explicit result
inductives.
-/

set_option autoImplicit false

namespace Keteparaha

/-- Whether a registered class was defined as a `Page` subclass or a
`Component` subclass (`page.py` defines the two class hierarchies side by
side; both use the `_RegistryMeta` metaclass). -/
inductive CKind where
  | page
  | component
  deriving DecidableEq, Repr

/-- A Python class as far as the registry machinery observes it: its name,
which hierarchy it belongs to, and its `url` and `selector` class attributes.
`none` models an attribute that is absent or `None` in the class body dict
(`dct.get` in `_RegistryMeta.__init__`, page.py lines 107-111). -/
structure ClassDef where
  name : String
  kind : CKind
  url : Option String
  selector : Option String
  deriving DecidableEq, Repr

/-- The `_Registry.store` class-level dict (page.py line 70), modelled as an
association list from key (URL or selector string) to class.  There is ONE
`store` dict shared by every `_Registry()` instance, because `store` is a
class attribute of `_Registry`; accordingly the whole development threads a
single `RegStore` value for both `Page._registry` (page.py line 521) and
`Component._registry` (page.py line 476). -/
def RegStore : Type := List (String × ClassDef)

instance : DecidableEq RegStore := by
  unfold RegStore
  infer_instance

/-- Python dict lookup `self.store[key]` (page.py lines 75-76): the value
bound to the key, or `none` where Python would raise `KeyError`. -/
def storeLookup : RegStore → String → Option ClassDef
  | [], _ => none
  | (k, v) :: rest, key => if k = key then some v else storeLookup rest key

/-- Python dict assignment `self.store[key] = value`
(`_Registry.__setitem__`, page.py lines 82-83): overwrite the binding in
place when the key is present, append it otherwise. -/
def storeInsert : RegStore → String → ClassDef → RegStore
  | [], key, v => [(key, v)]
  | (k, w) :: rest, key, v =>
      if k = key then (key, v) :: rest else (k, w) :: storeInsert rest key v

/-- `_Registry.__delitem__` (page.py lines 72-73).  Its body is `pass`: the
store is returned unchanged whatever the key. -/
def registryDelitem (store : RegStore) (key : String) : RegStore :=
  let _ := key
  store

/-- `_Registry.__setitem__` (page.py lines 82-83). -/
def registrySetitem (store : RegStore) (key : String) (v : ClassDef) :
    RegStore :=
  storeInsert store key v

/-- Python truthiness of a string-or-None attribute value: `None` and the
empty string are falsy, every other string is truthy.  Used by
`_RegistryMeta.__init__`, whose guards are `if dct.get(...)`. -/
def pyTruthyStr : Option String → Bool
  | none => false
  | some s => s ≠ ""

/-- `_Registry.make_class` (page.py lines 94-100): synthesize
`type('DynamicComponent', (Component,), selector-dict)`, a fresh `Component`
subclass named `DynamicComponent` whose `selector` class attribute is the
given selector and which has no `url` attribute.  (Creating the class also
runs `_RegistryMeta.__init__` on it; no claim reads the store after a
synthesis, so that side effect is not threaded here.) -/
def make_class (selector : String) : ClassDef :=
  { name := "DynamicComponent"
    kind := CKind.component
    url := none
    selector := some selector }

/-- `_Registry.__call__` (page.py lines 88-92): return the registered class
for the key, and on `KeyError` fall back to `make_class`. -/
def registry_call (store : RegStore) (selector : String) : ClassDef :=
  match storeLookup store selector with
  | some c => c
  | none => make_class selector

/-- `_RegistryMeta.__init__` (page.py lines 107-113): when the class body
has a truthy `url`, register the class under it; otherwise, when it has a
truthy `selector`, register under that; otherwise leave the store alone. -/
def registryMetaInit (store : RegStore) (cls : ClassDef) : RegStore :=
  if pyTruthyStr cls.url then
    storeInsert store (cls.url.getD "") cls
  else if pyTruthyStr cls.selector then
    storeInsert store (cls.selector.getD "") cls
  else
    store

/-- `_SeleniumWrapper.location` (page.py lines 317-319): the first element
of splitting the current browser URL on the question mark, i.e. the prefix
of the URL before its first question mark, or the whole URL when it has
none. -/
def location (currentUrl : String) : String :=
  String.mk (currentUrl.data.takeWhile (fun ch => ch ≠ '?'))

/-- An initialised component object as far as the claims observe it:
`Component.__init__` (page.py lines 486-488) stores only the parent and the
find strategy, so a component instance is its class plus its `_find_by`
string.  It performs no element lookup and never touches the driver. -/
structure CompObj where
  cls : ClassDef
  findBy : String
  deriving DecidableEq, Repr

/-- The `opens` argument of `_click` (page.py line 248): Python `None`, a
string, a class object, or an initialised component instance. -/
inductive Opens where
  | pyNone
  | strArg (s : String)
  | clsArg (c : ClassDef)
  | instArg (o : CompObj)
  deriving DecidableEq, Repr

/-- How a freshly returned page/component object was constructed: with the
clicked object as parent (`Cls(self)`, page.py lines 265 and 268) or with
the driver keyword (`Cls(driver=self._driver)`, page.py line 274). -/
inductive InitArg where
  | parentSelf
  | driverKw
  deriving DecidableEq, Repr

/-- What `_click` does after the element has been clicked.  `newInst c a`
is a freshly constructed instance of class `c` built with argument `a`;
`given o` is the `opens` object returned unchanged; `selfRet` is
`return self`; `typeError` is the `TypeError` that
`issubclass(opens, Component)` raises when `opens` is not a class (page.py
line 266 tests `issubclass` BEFORE `isclass`). -/
inductive ClickResult where
  | newInst (c : ClassDef) (arg : InitArg)
  | given (o : CompObj)
  | selfRet
  | typeError
  deriving DecidableEq, Repr

/-- The final two statements of `_click` (page.py lines 273-275): when the
url attribute of the object differs (by Python `!=`, where `None` differs
from every string) from the query-stripped browser location AND that
location is a key of the registry, instantiate the registered class with
`driver=self._driver`; otherwise `return self`. -/
def clickLocBranch (store : RegStore) (selfUrl : Option String)
    (currentUrl : String) : ClickResult :=
  if selfUrl ≠ some (location currentUrl)
      ∧ (storeLookup store (location currentUrl)).isSome then
    ClickResult.newInst (registry_call store (location currentUrl))
      InitArg.driverKw
  else
    ClickResult.selfRet

/-- `_SeleniumWrapper._click` (page.py lines 248-275), after the clickability
wait and the `component._element.click()` call (whose side effects are not
observed by the claims; `selfUrl` is the value of `self.url`, `currentUrl`
the driver URL read by `self.location()`).  The guard chain is modelled in
source order:
* `if opens and isinstance(opens, basestring)` — truthy string, so the
  EMPTY string falls through like `None`;
* `if opens and issubclass(opens, Component) and isclass(opens)` — for an
  initialised component instance `issubclass` raises `TypeError`, so the
  third guard is unreachable for instances; for a class that is not a
  `Component` subclass the guard is false and control falls through;
* `if opens and isinstance(opens, Component)` — dead code, see above;
* the location branch. -/
def clickImpl (store : RegStore) (selfUrl : Option String)
    (currentUrl : String) (opens : Opens) : ClickResult :=
  match opens with
  | Opens.pyNone => clickLocBranch store selfUrl currentUrl
  | Opens.strArg s =>
      if s ≠ "" then
        ClickResult.newInst (registry_call store s) InitArg.parentSelf
      else
        clickLocBranch store selfUrl currentUrl
  | Opens.clsArg c =>
      if c.kind = CKind.component then
        ClickResult.newInst c InitArg.parentSelf
      else
        clickLocBranch store selfUrl currentUrl
  | Opens.instArg _ => ClickResult.typeError

/-- The `selector` argument of `_SeleniumWrapper.click` (page.py line 277):
`None`, a string, an initialised `Component` instance, a `Component`
subclass passed as a class object, or any other Python value. -/
inductive SelectorArg where
  | pyNone
  | strArg (s : String)
  | instArg (o : CompObj)
  | clsArg (c : ClassDef)
  | otherArg
  deriving DecidableEq, Repr

/-- Models `isinstance(x, basestring)` on the `selector` argument. -/
def isBasestringSel : SelectorArg → Bool
  | SelectorArg.strArg _ => true
  | _ => false

/-- Models `isinstance(x, Component)` on the `selector` argument: true only
for initialised component instances.  A `Component` subclass passed as a
class object is an instance of the metaclass, not of `Component`, so it is
false here — which is what makes the second and third branch of `click`
unreachable for class arguments (page.py lines 290-297). -/
def isComponentInstSel : SelectorArg → Bool
  | SelectorArg.instArg _ => true
  | _ => false

/-- Models `inspect.isclass(x)` on the `selector` argument. -/
def isclassSel : SelectorArg → Bool
  | SelectorArg.clsArg _ => true
  | _ => false

/-- Models `x is None` on the `selector` argument. -/
def isNoneSel : SelectorArg → Bool
  | SelectorArg.pyNone => true
  | _ => false

/-- The observable outcome of `_SeleniumWrapper.click` (page.py lines
277-304): either control reached `_click` — the element was resolved and
clicked, producing a `ClickResult` — or the final `raise ValueError` ran
and nothing was ever clicked. -/
inductive ClickCall where
  | proceeded (r : ClickResult)
  | valueError
  deriving DecidableEq, Repr

/-- `_SeleniumWrapper.click`, mirroring the source `if`/`elif` chain.  The
component that gets clicked differs per branch (registry lookup of the
string, the passed instance, or `self`), but the value `_click` returns
does not depend on which element was clicked, so the branches that proceed
all produce `clickImpl` of the same state. -/
def click (store : RegStore) (selfUrl : Option String) (currentUrl : String)
    (selector : SelectorArg) (opens : Opens) : ClickCall :=
  if isBasestringSel selector then
    ClickCall.proceeded (clickImpl store selfUrl currentUrl opens)
  else if isComponentInstSel selector && isclassSel selector then
    ClickCall.proceeded (clickImpl store selfUrl currentUrl opens)
  else if isComponentInstSel selector && !(isclassSel selector) then
    ClickCall.proceeded (clickImpl store selfUrl currentUrl opens)
  else if isNoneSel selector then
    ClickCall.proceeded (clickImpl store selfUrl currentUrl opens)
  else
    ClickCall.valueError

/-- The argument of `get_component` (page.py line 137): a `Component`
subclass or a CSS selector string (the two documented inputs). -/
inductive ComponentOrSelector where
  | compClass (c : ClassDef)
  | sel (s : String)
  deriving DecidableEq, Repr

/-- `_SeleniumWrapper._get_component_class` (page.py lines 125-135): return
the argument when it is already a `Component` subclass, otherwise resolve
it through the registry (registered class or synthesized
`DynamicComponent`). -/
def get_component_class (store : RegStore) :
    ComponentOrSelector → ClassDef
  | ComponentOrSelector.compClass c => c
  | ComponentOrSelector.sel s => registry_call store s

/-- Exceptions observed by the `get_component` claims. -/
inductive PyError where
  | timeoutException
  | componentMissing
  deriving DecidableEq, Repr

/-- `Component.__init__` (page.py lines 486-488): it assigns
`self._parent = parent` and `self._find_by = find_by` (default
`'selector'`) and does nothing else — in particular it performs no element
lookup and never touches the driver, so it cannot raise
`TimeoutException`.  `present` is the set of selectors present in the page;
it is a parameter of the embedding only to make visible that construction
ignores it. -/
def componentInit (cls : ClassDef) (present : String → Bool) :
    Except PyError CompObj :=
  let _ := present
  Except.ok { cls := cls, findBy := "selector" }

/-- `_SeleniumWrapper.get_component` (page.py lines 137-152): resolve the
class, construct it with `self` as parent, and turn a `TimeoutException`
raised by the construction into `ComponentMissing`. -/
def get_component (present : String → Bool) (store : RegStore)
    (arg : ComponentOrSelector) : Except PyError CompObj :=
  match componentInit (get_component_class store arg) present with
  | Except.ok o => Except.ok o
  | Except.error PyError.timeoutException =>
      Except.error PyError.componentMissing
  | Except.error e => Except.error e

/-- The outcome of one invocation of the function wrapped by `retry`
(flow.py lines 23-34): return a value, raise an exception matched by the
`errors` argument, or raise an exception the `except errors` clause does
not catch. -/
inductive FuncStep where
  | ret (v : Nat)
  | raiseListed
  | raiseOther
  deriving DecidableEq, Repr

/-- The observable outcome of the `retry` wrapper.  `ok v` is a normal
return; `propagated i` is a non-listed exception escaping from invocation
`i`; `bareRaise last` is control reaching the bare `raise` statement after
the loop with `last` recording which invocation raised the most recently
caught listed error (under Python 2 the bare `raise` re-raises exactly that
error; under Python 3 a bare `raise` with no active exception is itself a
`RuntimeError`); `diverges` means the loop ran past the modelling fuel. -/
inductive RetryResult where
  | ok (v : Nat)
  | propagated (idx : Nat)
  | bareRaise (lastCaught : Option Nat)
  | diverges
  deriving DecidableEq, Repr

/-- The `while retries:` loop of the `retry` wrapper (flow.py lines 27-33),
with the wrapped function modelled as the outcome of its `idx`-th
invocation.  `retries` is a Python int, so the loop guard is `retries != 0`
and a negative count never reaches zero by the `retries -= 1` in the
handler.  The first component counts loop iterations (bounded by `fuel`);
the second counts actual invocations of the wrapped function. -/
def retryLoop (f : Nat → FuncStep) :
    Nat → Int → Nat → Option Nat → RetryResult × Nat
  | 0, _, _, _ => (RetryResult.diverges, 0)
  | fuel+1, retries, idx, last =>
      if retries = 0 then (RetryResult.bareRaise last, 0)
      else
        match f idx with
        | FuncStep.ret v => (RetryResult.ok v, 1)
        | FuncStep.raiseOther => (RetryResult.propagated idx, 1)
        | FuncStep.raiseListed =>
            ((retryLoop f fuel (retries - 1) (idx + 1) (some idx)).1,
             (retryLoop f fuel (retries - 1) (idx + 1) (some idx)).2 + 1)

/-- `retry(func, errors, attempts)` applied to arguments: run the wrapper
loop with `retries = attempts` from the first invocation with no caught
error yet. -/
def retryRun (f : Nat → FuncStep) (attempts : Int) (fuel : Nat) :
    RetryResult × Nat :=
  retryLoop f fuel attempts 0 none

/-- A wrapped function whose every invocation raises a listed error. -/
def alwaysListed : Nat → FuncStep := fun _ => FuncStep.raiseListed

/-- The exception a wrapped test method raised, as `snapshot_on_error`
observes it: its type and its `args` tuple. -/
structure RaisedExc where
  ty : String
  args : List String
  deriving DecidableEq, Repr

/-- Outcome of the wrapped test method inside `snapshot_on_error`. -/
inductive MethodOutcome where
  | success
  | raises (e : RaisedExc)
  deriving DecidableEq, Repr

/-- What the `snapshot_on_error` wrapper raises on exit.  `reraised ty msg
origTb` is `six.reraise(test_exc_type, test_exc.args[0], tb=test_traceback)`
succeeding: an exception of the original type `ty`, rebuilt from the first
argument `msg`, carrying the original traceback (Python 2 `raise tp, value,
tb` semantics; under Python 3 six.reraise with a non-exception value fails
on `value.__traceback__`).  `argsIndexError` is the `IndexError` that
evaluating `test_exc.args[0]` raises when the exception has no
arguments. -/
inductive WrapResult where
  | noRaise
  | reraised (ty : String) (msg : String) (origTb : Bool)
  | argsIndexError
  deriving DecidableEq, Repr

/-- `snapshot_on_error` wrapper (browser.py lines 36-79) around a method
outcome, on a test case with `nBrowsers` open browsers.  The first
component is how many browsers the screenshot loop iterated over (the
`for idx, browser in enumerate(self.browsers)` runs only in the `except
BaseException` handler, and per-browser page measurement is itself guarded,
so the loop visits every browser before the `finally` block re-raises).
Snapshot-path creation and the actual screenshot file writes are
environment effects outside the claims. -/
def snapshot_on_error (nBrowsers : Nat) (m : MethodOutcome) :
    Nat × WrapResult :=
  match m with
  | MethodOutcome.success => (0, WrapResult.noRaise)
  | MethodOutcome.raises e =>
      match e.args with
      | [] => (nBrowsers, WrapResult.argsIndexError)
      | a :: _ => (nBrowsers, WrapResult.reraised e.ty a true)

/-- Demonstration classes and store used by the witness theorems. -/
def dashboardCls : ClassDef :=
  { name := "Dashboard"
    kind := CKind.page
    url := some "https://site.test/dashboard/"
    selector := none }

def basketCls : ClassDef :=
  { name := "ShoppingBasket"
    kind := CKind.component
    url := none
    selector := some "#shopping-basket" }

def plainCls : ClassDef :=
  { name := "Helper"
    kind := CKind.component
    url := none
    selector := none }

def demoStore : RegStore :=
  [("https://site.test/dashboard/", dashboardCls),
   ("#shopping-basket", basketCls)]

/-- Demonstration wrapped function for the `retry` witness: the first
invocation raises a listed error, every later one returns 7. -/
def retryDemoFunc : Nat → FuncStep :=
  fun i => if i = 0 then FuncStep.raiseListed else FuncStep.ret 7

end Keteparaha

namespace Keteparaha

theorem storeLookup_insert_self (s : RegStore) (k : String) (v : ClassDef) :
    storeLookup (storeInsert s k v) k = some v := by
  induction s with
  | nil => simp [storeInsert, storeLookup]
  | cons hd tl ih =>
      by_cases h : hd.1 = k
      · obtain ⟨k0, v0⟩ := hd
        simp only at h
        subst h
        simp [storeInsert, storeLookup]
      · obtain ⟨k0, v0⟩ := hd
        simp only at h
        simp [storeInsert, storeLookup, h, ih]

theorem storeLookup_insert_of_ne (s : RegStore) (k k0 : String) (v : ClassDef)
    (h : k0 ≠ k) : storeLookup (storeInsert s k v) k0 = storeLookup s k0 := by
  induction s with
  | nil => simp [storeInsert, storeLookup, Ne.symm h]
  | cons hd tl ih =>
      obtain ⟨k1, v1⟩ := hd
      by_cases h1 : k1 = k
      · subst h1
        simp [storeInsert, storeLookup, Ne.symm h]
      · simp [storeInsert, storeLookup, h1, ih]

theorem storeLookup_insert_isSome (s : RegStore) (k k0 : String)
    (v : ClassDef) (h : (storeLookup s k0).isSome) :
    (storeLookup (storeInsert s k v) k0).isSome := by
  by_cases hk : k0 = k
  · subst hk
    simp [storeLookup_insert_self]
  · rw [storeLookup_insert_of_ne s k k0 v hk]
    exact h

theorem registry_call_of_lookup (store : RegStore) (k : String) (c : ClassDef)
    (h : storeLookup store k = some c) : registry_call store k = c := by
  simp [registry_call, h]

theorem registryMetaInit_url_lookup (store : RegStore) (cls : ClassDef)
    (u : String) (hu : cls.url = some u) (hne : u ≠ "") :
    storeLookup (registryMetaInit store cls) u = some cls := by
  have h : registryMetaInit store cls = storeInsert store u cls := by
    simp [registryMetaInit, pyTruthyStr, hu, hne]
  rw [h]
  exact storeLookup_insert_self store u cls

theorem registryMetaInit_selector_lookup (store : RegStore) (cls : ClassDef)
    (s : String) (hurl : pyTruthyStr cls.url = false)
    (hs : cls.selector = some s) (hne : s ≠ "") :
    storeLookup (registryMetaInit store cls) s = some cls := by
  have ht : pyTruthyStr cls.selector = true := by
    simp [pyTruthyStr, hs, hne]
  have h : registryMetaInit store cls = storeInsert store s cls := by
    unfold registryMetaInit
    simp only [hurl, ht]
    simp [hs]
  rw [h]
  exact storeLookup_insert_self store s cls

/-- C1: `_Registry.__call__` returns the registered class when the selector
(or URL) is a key of `store`, and otherwise returns the synthesized
`Component` subclass named `DynamicComponent` whose `selector` attribute is
the given selector. -/
theorem registry_call_resolution (store : RegStore) (sel : String) :
    (∀ c : ClassDef, storeLookup store sel = some c →
        registry_call store sel = c)
    ∧ (storeLookup store sel = none →
        registry_call store sel = make_class sel
        ∧ (registry_call store sel).name = "DynamicComponent"
        ∧ (registry_call store sel).kind = CKind.component
        ∧ (registry_call store sel).selector = some sel) := by
  constructor
  · intro c h
    exact registry_call_of_lookup store sel c h
  · intro h
    simp [registry_call, h, make_class]

/-- Witness for C1 at the demonstration store: a registered key resolves to
the registered class, an unregistered selector resolves to the synthesized
`DynamicComponent`. -/
theorem registry_call_resolution_witness :
    registry_call demoStore "#shopping-basket" = basketCls
    ∧ registry_call demoStore "#missing" = make_class "#missing" := by
  refine ⟨(registry_call_resolution demoStore "#shopping-basket").1
      basketCls (by decide), ?_⟩
  exact ((registry_call_resolution demoStore "#missing").2 (by decide)).1

/-- C4: defining a `Page` or `Component` subclass with a truthy (non-empty)
`url` registers it under that URL; with no truthy `url` but a truthy
`selector`, under that selector; with neither, the registry is unchanged. -/
theorem registry_meta_registration (store : RegStore) (cls : ClassDef) :
    (∀ u : String, cls.url = some u → u ≠ "" →
        storeLookup (registryMetaInit store cls) u = some cls)
    ∧ (∀ s : String, pyTruthyStr cls.url = false → cls.selector = some s →
        s ≠ "" → storeLookup (registryMetaInit store cls) s = some cls)
    ∧ (pyTruthyStr cls.url = false → pyTruthyStr cls.selector = false →
        registryMetaInit store cls = store) := by
  refine ⟨?_, ?_, ?_⟩
  · intro u hu hne
    exact registryMetaInit_url_lookup store cls u hu hne
  · intro s hurl hsel hne
    exact registryMetaInit_selector_lookup store cls s hurl hsel hne
  · intro hurl hsel
    simp [registryMetaInit, hurl, hsel]

/-- Witness for C4: registering the demonstration page, component, and the
attribute-less class into the empty store. -/
theorem registry_meta_registration_witness :
    storeLookup (registryMetaInit [] dashboardCls)
      "https://site.test/dashboard/" = some dashboardCls
    ∧ storeLookup (registryMetaInit [] basketCls) "#shopping-basket"
      = some basketCls
    ∧ registryMetaInit [] plainCls = ([] : RegStore) := by
  refine ⟨?_, ?_, ?_⟩
  · exact (registry_meta_registration [] dashboardCls).1
      "https://site.test/dashboard/" (by decide) (by decide)
  · exact (registry_meta_registration [] basketCls).2.1
      "#shopping-basket" (by decide) (by decide) (by decide)
  · exact (registry_meta_registration [] plainCls).2.2 (by decide) (by decide)

/-- C9: `_Registry.__delitem__` is a no-op, so deletion never changes the
store, and `__setitem__` only adds or overwrites, so a key that is present
stays present: the set of registered keys only grows. -/
theorem registry_delete_noop (store : RegStore) (key k2 : String)
    (v : ClassDef) :
    registryDelitem store key = store
    ∧ (∀ k0 : String, (storeLookup store k0).isSome →
        (storeLookup (registrySetitem store k2 v) k0).isSome) := by
  constructor
  · rfl
  · intro k0 h
    exact storeLookup_insert_isSome store k2 k0 v h

/-- Witness for C9 on the demonstration store: deleting a registered key
leaves the store intact, and re-registration keeps existing keys present. -/
theorem registry_delete_noop_witness :
    registryDelitem demoStore "#shopping-basket" = demoStore
    ∧ (storeLookup (registrySetitem demoStore "#new" plainCls)
        "#shopping-basket").isSome := by
  refine ⟨(registry_delete_noop demoStore "#shopping-basket" "#new"
      plainCls).1, ?_⟩
  exact (registry_delete_noop demoStore "#shopping-basket" "#new"
      plainCls).2 "#shopping-basket" (by decide)

/-- C10: there is one shared registry.  `_Registry.store` is a single
class-level dict, modelled here as the one `RegStore` value that both the
`Page` and the `Component` metaclass registration write; consequently a
class registered by defining a `Page` subclass (keyed by URL) is resolvable
through `_Registry.__call__` — the lookup used for component resolution —
and through plain key lookup — the membership test used on navigation — and
a `Component` subclass registered by selector is resolvable the same two
ways. -/
theorem shared_registry (store : RegStore) (c d : ClassDef) (u s : String)
    (hck : c.kind = CKind.page) (hcu : c.url = some u) (hu : u ≠ "")
    (hdk : d.kind = CKind.component) (hdu : pyTruthyStr d.url = false)
    (hds : d.selector = some s) (hs : s ≠ "") :
    registry_call (registryMetaInit store c) u = c
    ∧ storeLookup (registryMetaInit store c) u = some c
    ∧ registry_call (registryMetaInit store d) s = d
    ∧ storeLookup (registryMetaInit store d) s = some d := by
  have h1 : storeLookup (registryMetaInit store c) u = some c :=
    registryMetaInit_url_lookup store c u hcu hu
  have h2 : storeLookup (registryMetaInit store d) s = some d :=
    registryMetaInit_selector_lookup store d s hdu hds hs
  exact ⟨registry_call_of_lookup _ u c h1, h1,
    registry_call_of_lookup _ s d h2, h2⟩

/-- C2: a click with `opens=None`, after the element is clicked, returns a
new instance of the registered class for the query-stripped browser
location, constructed with `driver=self._driver`, exactly when the object
url differs from that location and the location is a registry key; in every
other case it returns the object the click was invoked on. -/
theorem click_none_navigation (store : RegStore) (selfUrl : Option String)
    (currentUrl : String) :
    (∀ c : ClassDef, storeLookup store (location currentUrl) = some c →
        selfUrl ≠ some (location currentUrl) →
        clickImpl store selfUrl currentUrl Opens.pyNone
          = ClickResult.newInst c InitArg.driverKw)
    ∧ (selfUrl = some (location currentUrl)
          ∨ storeLookup store (location currentUrl) = none →
        clickImpl store selfUrl currentUrl Opens.pyNone
          = ClickResult.selfRet) := by
  constructor
  · intro c hc hne
    have hr : registry_call store (location currentUrl) = c :=
      registry_call_of_lookup _ _ _ hc
    simp [clickImpl, clickLocBranch, hc, hne, hr]
  · intro h
    rcases h with h | h
    · simp [clickImpl, clickLocBranch, h]
    · simp [clickImpl, clickLocBranch, h]

/-- Witness for C2: on the demonstration store, navigating from the home
URL to the dashboard URL (with a query string on the driver URL) yields a
fresh `Dashboard` built from the driver, while staying on the same location
returns the clicked object itself. -/
theorem click_none_navigation_witness :
    clickImpl demoStore (some "https://site.test/")
      "https://site.test/dashboard/?q=1" Opens.pyNone
      = ClickResult.newInst dashboardCls InitArg.driverKw
    ∧ clickImpl demoStore (some "https://site.test/dashboard/")
      "https://site.test/dashboard/?q=1" Opens.pyNone
      = ClickResult.selfRet := by
  constructor
  · exact (click_none_navigation demoStore (some "https://site.test/")
      "https://site.test/dashboard/?q=1").1 dashboardCls (by decide)
      (by decide)
  · exact (click_none_navigation demoStore
      (some "https://site.test/dashboard/")
      "https://site.test/dashboard/?q=1").2 (Or.inl (by decide))

/-- C3 (code-bug evaluation): `_click` called with an already-initialised
`Component` instance as `opens` raises `TypeError`, because line 266 of
page.py evaluates `issubclass(opens, Component)` before `isclass(opens)`
and `issubclass` requires a class as first argument; the claim and the
docstring of `_click` say the instance is returned unchanged, and the guard
that would return it (line 269) is unreachable. -/
theorem click_opens_instance_typeerror :
    clickImpl demoStore (some "https://site.test/dashboard/")
      "https://site.test/dashboard/"
      (Opens.instArg { cls := basketCls, findBy := "selector" })
      = ClickResult.typeError := rfl

/-- C8: `click` with a `selector` that is neither a string, nor an
initialised `Component` instance, nor `None` — in particular any class
object, since a class is not an `isinstance` of `Component` — raises
`ValueError` without reaching `_click`, so nothing is clicked. -/
theorem click_rejects_non_selector (store : RegStore)
    (selfUrl : Option String) (currentUrl : String) (c : ClassDef)
    (opens : Opens) :
    click store selfUrl currentUrl (SelectorArg.clsArg c) opens
      = ClickCall.valueError
    ∧ click store selfUrl currentUrl SelectorArg.otherArg opens
      = ClickCall.valueError := by
  constructor <;> rfl

/-- Witness for C10: the demonstration page class and component class,
registered into the same empty store, are each resolvable by both lookup
paths. -/
theorem shared_registry_witness :
    registry_call (registryMetaInit [] dashboardCls)
      "https://site.test/dashboard/" = dashboardCls
    ∧ registry_call (registryMetaInit [] basketCls) "#shopping-basket"
      = basketCls := by
  have h := shared_registry [] dashboardCls basketCls
    "https://site.test/dashboard/" "#shopping-basket"
    (by decide) (by decide) (by decide) (by decide) (by decide) (by decide)
    (by decide)
  exact ⟨h.1, h.2.2.1⟩

/-- C5 (amended): for every set of selectors present in the page and every
component class or selector argument, `get_component` returns an
initialised component of the resolved class — whether or not the selector
is present.  `Component.__init__` performs no element lookup, so the
`TimeoutException` handler that would raise `ComponentMissing` is
unreachable; presence is only checked lazily when the element is first
used. -/
theorem get_component_always_initialises (present : String → Bool)
    (store : RegStore) (arg : ComponentOrSelector)
    (hk : (get_component_class store arg).kind = CKind.component) :
    get_component present store arg
      = Except.ok
          { cls := get_component_class store arg, findBy := "selector" } := by
  rfl

/-- Witness for C5 (amended): resolving the registered basket selector on a
page with no selectors present still yields the initialised component. -/
theorem get_component_always_initialises_witness :
    get_component (fun _ => false) demoStore
      (ComponentOrSelector.sel "#shopping-basket")
      = Except.ok { cls := basketCls, findBy := "selector" } := by
  exact (get_component_always_initialises (fun _ => false) demoStore
    (ComponentOrSelector.sel "#shopping-basket") (by decide)).trans rfl

/-- C5 (counterexample): on a page in which no selector is present at all,
`get_component` with an absent selector returns an initialised
`DynamicComponent` and does not raise `ComponentMissing`, contrary to the
claim and to the docstring of `get_component`. -/
theorem get_component_cex :
    get_component (fun _ => false) ([] : RegStore)
      (ComponentOrSelector.sel "#missing")
      = Except.ok { cls := make_class "#missing", findBy := "selector" }
    ∧ get_component (fun _ => false) ([] : RegStore)
        (ComponentOrSelector.sel "#missing")
      ≠ Except.error PyError.componentMissing := by
  refine ⟨rfl, ?_⟩
  intro h
  simp [get_component, componentInit] at h

theorem retryLoop_neg_diverges (fuel : Nat) :
    ∀ (retries : Int), retries < 0 → ∀ (idx : Nat) (last : Option Nat),
      (retryLoop alwaysListed fuel retries idx last).1
        = RetryResult.diverges := by
  induction fuel with
  | zero => intro retries _ idx last; rfl
  | succ n ih =>
      intro retries hr idx last
      have hne : ¬ retries = 0 := by omega
      simp [retryLoop, hne, alwaysListed]
      exact ih (retries - 1) (by omega) (idx + 1) (some idx)

theorem retryLoop_succ_nat (f : Nat → FuncStep) (fuel n idx : Nat)
    (last : Option Nat) :
    retryLoop f (fuel + 1) ((n + 1 : Nat) : Int) idx last
      = (match f idx with
         | FuncStep.ret v => (RetryResult.ok v, 1)
         | FuncStep.raiseOther => (RetryResult.propagated idx, 1)
         | FuncStep.raiseListed =>
             ((retryLoop f fuel ((n : Nat) : Int) (idx + 1) (some idx)).1,
              (retryLoop f fuel ((n : Nat) : Int) (idx + 1) (some idx)).2
                + 1)) := by
  have h1 : ¬ (((n + 1 : Nat) : Int) = 0) := by
    push_cast
    omega
  have h2 : ((n + 1 : Nat) : Int) - 1 = ((n : Nat) : Int) := by
    push_cast
    ring
  simp only [retryLoop]
  rw [if_neg h1, h2]

theorem retryLoop_all_listed (f : Nat → FuncStep) :
    ∀ (m fuel idx : Nat) (last : Option Nat), m + 2 ≤ fuel →
      (∀ j, j ≤ m → f (idx + j) = FuncStep.raiseListed) →
      retryLoop f fuel ((m + 1 : Nat) : Int) idx last
        = (RetryResult.bareRaise (some (idx + m)), m + 1) := by
  intro m
  induction m with
  | zero =>
      intro fuel idx last hf hall
      match fuel, hf with
      | fuel + 2, _ =>
          have h0 : f idx = FuncStep.raiseListed := by
            simpa using hall 0 (Nat.le_refl 0)
          rw [retryLoop_succ_nat, h0]
          simp [retryLoop]
  | succ m ih =>
      intro fuel idx last hf hall
      match fuel, hf with
      | fuel + 1, hf =>
          have h0 : f idx = FuncStep.raiseListed := by
            simpa using hall 0 (Nat.zero_le (m + 1))
          have hrec := ih fuel (idx + 1) (some idx) (by omega)
            (fun j hj => by
              have h3 := hall (j + 1) (by omega)
              have he : idx + (j + 1) = idx + 1 + j := by omega
              rw [he] at h3
              exact h3)
          rw [retryLoop_succ_nat, h0]
          simp only [hrec]
          have he2 : idx + 1 + m = idx + (m + 1) := by omega
          simp [he2]

theorem retryLoop_stops_at (f : Nat → FuncStep) :
    ∀ (m k fuel idx : Nat) (last : Option Nat), m < k → k ≤ fuel →
      (∀ j, j < m → f (idx + j) = FuncStep.raiseListed) →
      (∀ v, f (idx + m) = FuncStep.ret v →
          retryLoop f fuel ((k : Nat) : Int) idx last
            = (RetryResult.ok v, m + 1))
      ∧ (f (idx + m) = FuncStep.raiseOther →
          retryLoop f fuel ((k : Nat) : Int) idx last
            = (RetryResult.propagated (idx + m), m + 1)) := by
  intro m
  induction m with
  | zero =>
      intro k fuel idx last hm hf _
      match k, hm with
      | k + 1, _ =>
          match fuel, hf with
          | fuel + 1, _ =>
              constructor
              · intro v hv
                have hv0 : f idx = FuncStep.ret v := by simpa using hv
                rw [retryLoop_succ_nat, hv0]
              · intro hv
                have hv0 : f idx = FuncStep.raiseOther := by simpa using hv
                rw [retryLoop_succ_nat, hv0]
                simp
  | succ m ih =>
      intro k fuel idx last hm hf hall
      match k, hm with
      | k + 1, hm =>
          match fuel, hf with
          | fuel + 1, hf =>
              have h0 : f idx = FuncStep.raiseListed := by
                simpa using hall 0 (Nat.succ_pos m)
              have hall2 : ∀ j, j < m → f (idx + 1 + j)
                  = FuncStep.raiseListed := by
                intro j hj
                have h3 := hall (j + 1) (by omega)
                have he : idx + (j + 1) = idx + 1 + j := by omega
                rw [he] at h3
                exact h3
              have he2 : idx + (m + 1) = idx + 1 + m := by omega
              have hrec := ih k fuel (idx + 1) (some idx) (by omega)
                (by omega) hall2
              constructor
              · intro v hv
                rw [he2] at hv
                have hr := hrec.1 v hv
                rw [retryLoop_succ_nat, h0]
                simp only [hr]
              · intro hv
                rw [he2] at hv
                have hr := hrec.2 hv
                rw [retryLoop_succ_nat, h0]
                simp only [hr]
                simp [he2]

/-- C6 (amended): for every behaviour of the wrapped function and every
attempts count of at least 1, the `retry` wrapper terminates within
attempts+1 loop iterations, invokes the function at most attempts times,
returns the value of the first invocation that does not raise a listed
error, lets a non-listed error propagate from the invocation that raised
it, and, when all attempts invocations raise listed errors, reaches the
bare `raise` with the last invocation as the most recently caught error
(which Python 2 re-raises; a Python 3 bare raise with no active exception
is a `RuntimeError`). -/
theorem retry_bounded (f : Nat → FuncStep) (n : Nat) (hn : 1 ≤ n) :
    ((retryRun f ((n : Nat) : Int) (n + 1)).1 ≠ RetryResult.diverges)
    ∧ ((retryRun f ((n : Nat) : Int) (n + 1)).2 ≤ n)
    ∧ (∀ m v, m < n → (∀ j, j < m → f j = FuncStep.raiseListed) →
        f m = FuncStep.ret v →
        retryRun f ((n : Nat) : Int) (n + 1) = (RetryResult.ok v, m + 1))
    ∧ (∀ m, m < n → (∀ j, j < m → f j = FuncStep.raiseListed) →
        f m = FuncStep.raiseOther →
        retryRun f ((n : Nat) : Int) (n + 1)
          = (RetryResult.propagated m, m + 1))
    ∧ ((∀ j, j < n → f j = FuncStep.raiseListed) →
        retryRun f ((n : Nat) : Int) (n + 1)
          = (RetryResult.bareRaise (some (n - 1)), n)) := by
  have hret : ∀ m v, m < n → (∀ j, j < m → f j = FuncStep.raiseListed) →
      f m = FuncStep.ret v →
      retryRun f ((n : Nat) : Int) (n + 1) = (RetryResult.ok v, m + 1) := by
    intro m v hm hall hv
    have h := (retryLoop_stops_at f m n (n + 1) 0 none hm (by omega)
      (fun j hj => by simpa using hall j hj)).1 v (by simpa using hv)
    simpa [retryRun] using h
  have hoth : ∀ m, m < n → (∀ j, j < m → f j = FuncStep.raiseListed) →
      f m = FuncStep.raiseOther →
      retryRun f ((n : Nat) : Int) (n + 1)
        = (RetryResult.propagated m, m + 1) := by
    intro m hm hall hv
    have h := (retryLoop_stops_at f m n (n + 1) 0 none hm (by omega)
      (fun j hj => by simpa using hall j hj)).2 (by simpa using hv)
    simpa [retryRun] using h
  have hlist : (∀ j, j < n → f j = FuncStep.raiseListed) →
      retryRun f ((n : Nat) : Int) (n + 1)
        = (RetryResult.bareRaise (some (n - 1)), n) := by
    intro hall
    obtain ⟨m, rfl⟩ : ∃ m, n = m + 1 := ⟨n - 1, by omega⟩
    have h := retryLoop_all_listed f m (m + 2) 0 none (by omega)
      (fun j hj => by simpa using hall j (by omega))
    simpa [retryRun] using h
  refine ⟨?_, ?_, hret, hoth, hlist⟩
  · by_cases hall : ∀ j, j < n → f j = FuncStep.raiseListed
    · rw [hlist hall]
      simp
    · push_neg at hall
      obtain ⟨j0, hj0, hfj0⟩ := hall
      have hex : ∃ j, j < n ∧ f j ≠ FuncStep.raiseListed := ⟨j0, hj0, hfj0⟩
      set m := Nat.find hex with hmdef
      have hspec := Nat.find_spec hex
      have hmin : ∀ j, j < m → f j = FuncStep.raiseListed := by
        intro j hj
        have := Nat.find_min hex hj
        by_contra hne
        exact this ⟨by omega, hne⟩
      cases hfm : f m with
      | ret v =>
          rw [hret m v hspec.1 hmin hfm]
          simp
      | raiseOther =>
          rw [hoth m hspec.1 hmin hfm]
          simp
      | raiseListed => exact absurd hfm hspec.2
  · by_cases hall : ∀ j, j < n → f j = FuncStep.raiseListed
    · rw [hlist hall]
    · push_neg at hall
      obtain ⟨j0, hj0, hfj0⟩ := hall
      have hex : ∃ j, j < n ∧ f j ≠ FuncStep.raiseListed := ⟨j0, hj0, hfj0⟩
      set m := Nat.find hex with hmdef
      have hspec := Nat.find_spec hex
      have hmin : ∀ j, j < m → f j = FuncStep.raiseListed := by
        intro j hj
        have := Nat.find_min hex hj
        by_contra hne
        exact this ⟨by omega, hne⟩
      cases hfm : f m with
      | ret v =>
          rw [hret m v hspec.1 hmin hfm]
          simp
          omega
      | raiseOther =>
          rw [hoth m hspec.1 hmin hfm]
          simp
          omega
      | raiseListed => exact absurd hfm hspec.2

/-- Witness for C6 (amended): with three attempts over a function whose
first invocation raises a listed error and whose second returns 7, the
wrapper returns 7 after exactly two invocations. -/
theorem retry_bounded_witness :
    retryRun retryDemoFunc ((3 : Nat) : Int) 4 = (RetryResult.ok 7, 2) := by
  exact (retry_bounded retryDemoFunc 3 (by omega)).2.2.1 1 7 (by omega)
    (fun j hj => by
      have hj0 : j = 0 := by omega
      subst hj0
      rfl)
    rfl

/-- C6 (counterexample): the claim fails outside attempts >= 1.  With
attempts = -1 and a function that always raises a listed error the `while
retries` loop never terminates, because `retries -= 1` moves the count away
from zero — so the wrapper is not a bounded retry loop for every attempt
count; and with attempts = 0 the function is never invoked and the wrapper
raises with no caught error instead of returning the result of a successful
invocation. -/
theorem retry_cex :
    (¬ ∃ fuel : Nat,
        (retryRun alwaysListed (-1) fuel).1 ≠ RetryResult.diverges)
    ∧ retryRun (fun _ => FuncStep.ret 42) 0 10
        = (RetryResult.bareRaise none, 0) := by
  constructor
  · rintro ⟨fuel, h⟩
    exact h (retryLoop_neg_diverges fuel (-1) (by omega) 0 none)
  · rfl

/-- C7 (amended): the `snapshot_on_error` wrapper raises nothing when the
wrapped method succeeds; when the method raises an exception carrying at
least one argument, the wrapper runs the screenshot loop over every open
browser and then re-raises an exception of the original type, rebuilt from
the first argument, with the original traceback (Python 2 reraise
semantics). -/
theorem snapshot_on_error_behaviour (nBrowsers : Nat) (e : RaisedExc) :
    snapshot_on_error nBrowsers MethodOutcome.success
      = (0, WrapResult.noRaise)
    ∧ (∀ a rest, e.args = a :: rest →
        snapshot_on_error nBrowsers (MethodOutcome.raises e)
          = (nBrowsers, WrapResult.reraised e.ty a true)) := by
  constructor
  · rfl
  · intro a rest h
    simp [snapshot_on_error, h]

/-- Witness for C7 (amended): a successful method raises nothing; a failing
method with a one-argument AssertionError on a two-browser test case visits
both browsers and re-raises an AssertionError with the original
traceback. -/
theorem snapshot_on_error_behaviour_witness :
    snapshot_on_error 2 MethodOutcome.success = (0, WrapResult.noRaise)
    ∧ snapshot_on_error 2
        (MethodOutcome.raises { ty := "AssertionError", args := ["boom"] })
      = (2, WrapResult.reraised "AssertionError" "boom" true) := by
  exact ⟨(snapshot_on_error_behaviour 2
      { ty := "AssertionError", args := ["boom"] }).1,
    (snapshot_on_error_behaviour 2
      { ty := "AssertionError", args := ["boom"] }).2 "boom" [] rfl⟩

/-- C7 (counterexample): a method raising an exception with an empty args
tuple makes the wrapper raise `IndexError` from evaluating
`test_exc.args[0]` in the `finally` block (browser.py line 77), not an
exception of the original type. -/
theorem snapshot_on_error_cex :
    snapshot_on_error 1
      (MethodOutcome.raises { ty := "AssertionError", args := [] })
      = (1, WrapResult.argsIndexError) := rfl

end Keteparaha
